import Mathlib

/-!
Shallow embedding of the ESRNN orchestrator (src/ESRNN/ESRNN.py) and its
configuration holder (src/ESRNN/utils/config.py), together with proofs of
the specification claims about them.

Conventions of the embedding:
* pandas timestamps are modelled as integers (`Int`), and an inferred
  pandas frequency as the integer step between consecutive timestamps
  (`Option Int`, `none` standing for Python `None` from `pd.infer_freq`);
* floating-point hyperparameters are carried as rationals: the claims never
  compute with them, they are only stored and compared;
* Python attribute mutation is modelled by explicit state passing: an
  operation that can raise returns the state as mutated up to the raise
  point together with an error value, mirroring that a failed Python
  `assert` leaves earlier attribute writes in place;
* PyTorch modules are modelled by identity tags (`Nat`): `deepcopy`
  allocates a fresh tag, `[x] * 5` repeats one tag, so aliasing between
  module objects is exactly equality of tags.
-/

namespace ESRNNModel

/-- Configuration holder, embedding `ModelConfig.__init__`
(src/ESRNN/utils/config.py).  The fields `exogenous_size`, `n_series`,
`category_to_idx`, `frequency` and `copy` are assigned after construction
by the orchestrator (Python sets them as attributes post-hoc); they are
`Option`s, `none` meaning "not yet assigned" (for `frequency`, `none` is
also the value when `pd.infer_freq` returned `None`). -/
structure ModelConfig where
  -- Train Parameters
  max_epochs : Nat
  batch_size : Nat
  batch_size_test : Nat
  freq_of_test : Int
  learning_rate : Rat
  lr_scheduler_step_size : Nat
  lr_decay : Rat
  per_series_lr_multip : Rat
  gradient_eps : Rat
  gradient_clipping_threshold : Rat
  rnn_weight_decay : Rat
  noise_std : Rat
  level_variability_penalty : Rat
  testing_percentile : Rat
  training_percentile : Rat
  ensemble : Bool
  device : String
  -- Model Parameters
  cell_type : String
  state_hsize : Nat
  dilations : List (List Nat)
  add_nl_layer : Bool
  random_seed : Nat
  -- Data Parameters
  seasonality : List Nat
  naive_seasonality : Nat
  input_size : Nat
  input_size_i : Nat
  output_size : Nat
  output_size_i : Nat
  frequency : Option Int
  min_series_length : Nat
  max_series_length : Nat
  max_periods : Nat
  root_dir : String
  -- Attributes assigned post-construction by the orchestrator
  exogenous_size : Option Nat
  n_series : Option Nat
  category_to_idx : Option (List (Nat × Nat))
  copy : Option Int
  deriving DecidableEq

/-- Embedding of `ModelConfig.__init__`: stores the primary fields and
computes the derived ones (`naive_seasonality`, `input_size_i`,
`output_size_i`, `min_series_length`, `max_series_length`) exactly as
src/ESRNN/utils/config.py lines 13-50 does. -/
def ModelConfig.init (max_epochs batch_size batch_size_test : Nat)
    (freq_of_test : Int)
    (learning_rate : Rat) (lr_scheduler_step_size : Nat) (lr_decay : Rat)
    (per_series_lr_multip gradient_eps gradient_clipping_threshold : Rat)
    (rnn_weight_decay noise_std level_variability_penalty : Rat)
    (testing_percentile training_percentile : Rat) (ensemble : Bool)
    (cell_type : String) (state_hsize : Nat) (dilations : List (List Nat))
    (add_nl_layer : Bool) (seasonality : List Nat)
    (input_size output_size : Nat) (frequency : Option Int)
    (max_periods random_seed : Nat) (device root_dir : String) :
    ModelConfig :=
  let input_size_i := input_size
  let output_size_i := output_size
  let min_series_length := input_size_i + output_size_i
  { max_epochs := max_epochs
    batch_size := batch_size
    batch_size_test := batch_size_test
    freq_of_test := freq_of_test
    learning_rate := learning_rate
    lr_scheduler_step_size := lr_scheduler_step_size
    lr_decay := lr_decay
    per_series_lr_multip := per_series_lr_multip
    gradient_eps := gradient_eps
    gradient_clipping_threshold := gradient_clipping_threshold
    rnn_weight_decay := rnn_weight_decay
    noise_std := noise_std
    level_variability_penalty := level_variability_penalty
    testing_percentile := testing_percentile
    training_percentile := training_percentile
    ensemble := ensemble
    device := device
    cell_type := cell_type
    state_hsize := state_hsize
    dilations := dilations
    add_nl_layer := add_nl_layer
    random_seed := random_seed
    seasonality := seasonality
    naive_seasonality := if seasonality.length > 0 then seasonality.headD 1 else 1
    input_size := input_size
    input_size_i := input_size_i
    output_size := output_size
    output_size_i := output_size_i
    frequency := frequency
    min_series_length := min_series_length
    max_series_length := max_periods * input_size + min_series_length
    max_periods := max_periods
    root_dir := root_dir
    exogenous_size := none
    n_series := none
    category_to_idx := none
    copy := none }

/-- The configuration built by `ESRNN.__init__` with its default keyword
arguments (src/ESRNN/ESRNN.py lines 113-138). -/
def defaultMC : ModelConfig :=
  ModelConfig.init 15 1 64 (-1) (Rat.divInt 1 1000) 9 (Rat.divInt 9 10) 1
    (Rat.divInt 1 100000000) 20 0 (Rat.divInt 1 1000) 80 50 50 false "LSTM"
    40 [[1, 2], [4, 8]] false [4] 4 8 none 20 1 "cpu" "./"

/-- One series of the wide panel produced by `long_to_wide`
(src/ESRNN/ESRNN.py lines 548-591): the wide array `X` holds, per series,
the columns `[unique_id, x, last_ds]`; `length` is the number of observed
values of the series in the wide target array `y`. -/
structure SeriesData where
  unique_id : String
  x : Nat
  last_ds : Int
  length : Nat
  deriving DecidableEq

/-- Modelled from the spec: the `Iterator` class (src/ESRNN/utils/data.py)
is not under src/.  Spec section 4.2: the iterator stores the series count
and the wide arrays, keeps a sort key whose `unique_id` column is aligned
with the rows of `X` (the orchestrator reads `dataloader.sort_key['unique_id']`
and `dataloader.X[:, 2]` index-aligned in `predict`), and determines the
batch count from the batch size and the series count. -/
structure DataLoaderState where
  batch_size : Nat
  n_batches : Nat
  series : List SeriesData
  deriving DecidableEq

/-- Number of series held by the iterator. -/
def DataLoaderState.n_series (dl : DataLoaderState) : Nat := dl.series.length

/-- Modelled from the spec: `Iterator.update_batch_size` (spec section 4.2)
"reconfigures batching (used to switch between small training batches and
large evaluation batches) and recomputes `n_batches`"; the batch count is
the ceiling of series count over batch size. -/
def DataLoaderState.update_batch_size (dl : DataLoaderState) (n : Nat) :
    DataLoaderState :=
  { dl with
    batch_size := n
    n_batches := if n = 0 then 0 else (dl.series.length + n - 1) / n }

/-- Modelled from the spec: `Iterator` construction (spec section 4.2)
stores the series and the batch size from the config and excludes series
shorter than required (spec section 3: every series has length at least
`input_size + output_size`, i.e. `min_series_length`, after preprocessing,
shorter ones being excluded at iterator construction time). -/
def iteratorMake (mc : ModelConfig) (series : List SeriesData) :
    DataLoaderState :=
  let kept := series.filter (fun s => mc.min_series_length ≤ s.length)
  { batch_size := mc.batch_size
    n_batches :=
      if mc.batch_size = 0 then 0
      else (kept.length + mc.batch_size - 1) / mc.batch_size
    series := kept }

/-- The mutable attributes of an `ESRNN` orchestrator instance that the
claims observe.  PyTorch modules are represented by identity tags:
`netId` is the tag of `self.esrnn`, `netCounter` the fresh-tag supply,
`netTrainMode` whether the module is in train (`true`) or eval mode.
`hasTest` records `self.y_test_df is not None`. -/
structure ModelState where
  mc : ModelConfig
  fitted : Bool
  dataloader : Option DataLoaderState
  netId : Option Nat
  netTrainMode : Bool
  netCounter : Nat
  hasTest : Bool
  deriving DecidableEq

/-- Embedding of `ESRNN.__init__` (src/ESRNN/ESRNN.py lines 113-139): the
constructor stores the configuration and sets `self._fitted = False`; no
dataloader or network exists yet. -/
def ESRNN.new (mc : ModelConfig) : ModelState :=
  { mc := mc
    fitted := false
    dataloader := none
    netId := none
    netTrainMode := true
    netCounter := 0
    hasTest := false }

/-- A row of a caller-supplied long-format frame `X_df`. -/
structure XRow where
  unique_id : String
  ds : Int
  x : Nat
  deriving DecidableEq

/-- A caller-supplied frame: `hasUniqueId` and `hasDs` record whether the
`unique_id` and `ds` columns are present (the `ds` values of the rows are
meaningful only when `hasDs` is true). -/
structure XFrame where
  hasUniqueId : Bool
  hasDs : Bool
  rows : List XRow
  deriving DecidableEq

/-- A row of the forecast panel `Y_hat_panel` built by `predict`. -/
structure YRow where
  unique_id : String
  ds : Int
  y_hat : Rat
  deriving DecidableEq

/-- A row of the frame returned by `predict`: a caller row joined with the
forecast value, `none` standing for the NaN a pandas left merge produces
on unmatched rows. -/
structure MergedRow where
  unique_id : String
  ds : Int
  x : Nat
  y_hat : Option Rat
  deriving DecidableEq

/-- Embedding of `pd.date_range(start=last_ds, periods=output_size+1,
freq=frequency)[1:]` (src/ESRNN/ESRNN.py line 508): the `output_size`
timestamps strictly after `last_ds`, spaced by the frequency step `f`. -/
def panelDs (f : Int) (output_size : Nat) (last_ds : Int) : List Int :=
  (List.range output_size).map
    (fun k : Nat => last_ds + ((k : Int) + 1) * f)

/-- Embedding of the `Y_hat_panel` construction (src/ESRNN/ESRNN.py lines
499-538): the `unique_id` column repeats each series id `output_size`
times, the `ds` column concatenates each series' future date range, the
`y_hat` column is the flattened forecast values collected by the batch
loop (one list of length `output_size` per series, in sort-key order;
modelled from the spec: `get_batch` covers all series exactly once per
pass, section 4.2), and the three columns are zipped into rows. -/
def yHatPanel (series : List SeriesData) (output_size : Nat) (f : Int)
    (forecasts : List (List Rat)) : List YRow :=
  let panel_unique_id :=
    series.flatMap (fun s => List.replicate output_size s.unique_id)
  let panel_ds := series.flatMap (fun s => panelDs f output_size s.last_ds)
  let panel_y_hat := forecasts.flatten
  (panel_unique_id.zip (panel_ds.zip panel_y_hat)).map
    (fun p => { unique_id := p.1, ds := p.2.1, y_hat := p.2.2 })

/-- Embedding of `X_df.merge(Y_hat_panel, on=['unique_id', 'ds'],
how='left')` (src/ESRNN/ESRNN.py line 541): for each left row in order,
one output row per right row matching on both keys, or a single row with
missing `y_hat` when no right row matches. -/
def leftMergeDs (xrows : List XRow) (yrows : List YRow) : List MergedRow :=
  xrows.flatMap (fun r =>
    let ms := yrows.filter
      (fun q => q.unique_id == r.unique_id && q.ds == r.ds)
    if ms.isEmpty then
      [{ unique_id := r.unique_id, ds := r.ds, x := r.x, y_hat := none }]
    else ms.map (fun q =>
      { unique_id := r.unique_id, ds := r.ds, x := r.x,
        y_hat := some q.y_hat }))

/-- Embedding of `X_df.merge(Y_hat_panel, on=['unique_id'], how='left')`
(src/ESRNN/ESRNN.py line 543): as `leftMergeDs` but matching on the
series id alone. -/
def leftMergeId (xrows : List XRow) (yrows : List YRow) : List MergedRow :=
  xrows.flatMap (fun r =>
    let ms := yrows.filter (fun q => q.unique_id == r.unique_id)
    if ms.isEmpty then
      [{ unique_id := r.unique_id, ds := r.ds, x := r.x, y_hat := none }]
    else ms.map (fun q =>
      { unique_id := r.unique_id, ds := r.ds, x := r.x,
        y_hat := some q.y_hat }))

/-- Errors `ESRNN.predict` can raise: the failed `assert 'unique_id' in
X_df` (line 489), the failed `assert self._fitted` (line 490), and the
attribute errors a fitted-flag forgery would hit when no dataloader or
series count was ever built (unreachable through `fit`). -/
inductive PredictErr where
  | missingUniqueId
  | notFitted
  | invalidState
  deriving DecidableEq

/-- Result of a successful `predict` call: the merged output frame and the
batch size the forecast loop ran at. -/
structure PredictOutcome where
  panel : List MergedRow
  usedBatchSize : Nat
  deriving DecidableEq

/-- State effect of a `predict` call that passed its asserts: the module
is switched to evaluation mode (line 492) and the dataloader is resized to
`min(n_series, batch_size_test)` (lines 495-496) and restored to the
configured training batch size before returning (line 545). -/
def predictStateEffect (st : ModelState) : ModelState :=
  match st.dataloader, st.mc.n_series with
  | some dl, some n =>
    { st with
      netTrainMode := false
      dataloader := some ((dl.update_batch_size
        (min n st.mc.batch_size_test)).update_batch_size st.mc.batch_size) }
  | _, _ => { st with netTrainMode := false }

/-- Embedding of `ESRNN.predict` (src/ESRNN/ESRNN.py lines 464-546).  The
`forecasts` parameter abstracts the per-series outputs of the network (or
the ensemble average), one list of length `output_size` per series in
sort-key order; the network itself is not under src/. -/
def predictModel (st : ModelState) (xdf : XFrame)
    (forecasts : List (List Rat)) :
    ModelState × Except PredictErr PredictOutcome :=
  if ¬ xdf.hasUniqueId then (st, .error .missingUniqueId)
  else if ¬ st.fitted then (st, .error .notFitted)
  else
    match st.dataloader, st.mc.n_series with
    | some dl, some n =>
      let new_batch_size := min n st.mc.batch_size_test
      let dlMid := dl.update_batch_size new_batch_size
      let f := st.mc.frequency.getD 1
      let rows := yHatPanel dlMid.series st.mc.output_size f forecasts
      let merged :=
        if xdf.hasDs then leftMergeDs xdf.rows rows
        else leftMergeId xdf.rows rows
      (predictStateEffect st,
        .ok { panel := merged, usedBatchSize := new_batch_size })
    | _, _ => ({ st with netTrainMode := false }, .error .invalidState)

/-- Embedding of `ESRNN.model_evaluation` (src/ESRNN/ESRNN.py lines
274-304) restricted to the modelled state: the dataloader is resized to
`min(n_series, batch_size_test)` for the evaluation loop and restored to
the configured training batch size before returning.  The second
component is the dataloader as used by the evaluation loop (the loss
computation is delegated to the network and criterion). -/
def model_evaluationModel (st : ModelState) :
    ModelState × Option DataLoaderState :=
  match st.dataloader, st.mc.n_series with
  | some dl, some n =>
    let new_batch_size := min n st.mc.batch_size_test
    let dlMid := dl.update_batch_size new_batch_size
    let dlEnd := dlMid.update_batch_size st.mc.batch_size
    ({ st with dataloader := some dlEnd }, some dlMid)
  | _, _ => (st, none)

/-- Embedding of `ESRNN.per_series_evaluation` (src/ESRNN/ESRNN.py lines
248-272) restricted to the modelled state: identical dataloader resize
and restore discipline as `model_evaluation`. -/
def per_series_evaluationModel (st : ModelState) :
    ModelState × Option DataLoaderState :=
  match st.dataloader, st.mc.n_series with
  | some dl, some n =>
    let new_batch_size := min n st.mc.batch_size_test
    let dlMid := dl.update_batch_size new_batch_size
    let dlEnd := dlMid.update_batch_size st.mc.batch_size
    ({ st with dataloader := some dlEnd }, some dlMid)
  | _, _ => (st, none)

/-- Embedding of the per-epoch evaluation condition of `ESRNN.train`
(src/ESRNN/ESRNN.py lines 237-238):
`(epoch % self.mc.freq_of_test == 0) and (self.mc.freq_of_test > 0)`,
then `self.y_test_df is not None`.  `Int.fmod` matches Python's
floor-sign `%` (they agree for every divisor here; a `freq_of_test` of
exactly 0 would raise `ZeroDivisionError` in Python, a case no claim
touches). -/
def evalRunsAt (freq_of_test : Int) (hasTest : Bool) (epoch : Nat) : Bool :=
  (Int.fmod (epoch : Int) freq_of_test == 0 &&
    decide (freq_of_test > 0)) && hasTest

/-- State effect of one epoch of `ESRNN.train` (src/ESRNN/ESRNN.py lines
191-244) on the modelled state: the batch loop, optimizer and scheduler
steps touch only network and optimizer internals (unmodelled); when the
periodic evaluation triggers, `model_evaluation` resizes and restores the
dataloader, `evaluate_model_prediction` runs `predict` on the (in-train,
schema-valid) test frame, and `self.esrnn.train()` switches the module
back to train mode. -/
def trainEpochState (st : ModelState) (epoch : Nat) : ModelState :=
  let st1 := { st with netTrainMode := true }
  if evalRunsAt st1.mc.freq_of_test st1.hasTest epoch then
    let st2 := (model_evaluationModel st1).1
    let st3 := predictStateEffect st2
    { st3 with netTrainMode := true }
  else st1

/-- Embedding of the epoch loop of `ESRNN.train` (src/ESRNN/ESRNN.py
lines 191-246) restricted to the modelled state. -/
def trainModel (st : ModelState) (max_epochs : Nat) : ModelState :=
  (List.range max_epochs).foldl trainEpochState st

/-- Embedding of `ESRNN.evaluate_model_prediction` (src/ESRNN/ESRNN.py
lines 306-356) restricted to the modelled state: the fitted assert (line
335) followed by the internal `predict` call; the `owa` benchmark scoring
is an external collaborator. -/
def evaluate_model_predictionModel (st : ModelState) (xdf : XFrame)
    (forecasts : List (List Rat)) :
    ModelState × Except PredictErr PredictOutcome :=
  if ¬ st.fitted then (st, .error .notFitted)
  else predictModel st xdf forecasts

/-- Insertion of a value into a sorted list, for the embedding of
`np.unique`. -/
def insertSortedNat (a : Nat) : List Nat → List Nat
  | [] => [a]
  | b :: t => if a ≤ b then a :: b :: t else b :: insertSortedNat a t

/-- Sorting by insertion, for the embedding of `np.unique`. -/
def sortNat (l : List Nat) : List Nat := l.foldr insertSortedNat []

/-- Embedding of `np.unique` (src/ESRNN/ESRNN.py line 418): the sorted
distinct values. -/
def npUnique (l : List Nat) : List Nat := sortNat l.dedup

/-- The input data handed to `ESRNN.fit`, reduced to what the embedding
observes: the column sets of the train frames, the frequencies
`pd.infer_freq` reports for each supplied frame (an external
collaborator, so carried as data), the wide per-series panel
`long_to_wide` produces, the optional test frames (the column set of
`y_test_df`, and each test frame's inferred frequency), and the
benchmark column name argument. -/
structure FitInput where
  xCols : List String
  yCols : List String
  xFreq : Option Int
  yFreq : Option Int
  series : List SeriesData
  xTest : Option (Option Int)
  yTest : Option (List String × Option Int)
  y_hat_benchmark : String
  deriving DecidableEq

/-- The frequency list `self.frequencies` built by `fit` (src/ESRNN/
ESRNN.py lines 436-444): train X and y frequencies, extended by the test
X and y frequencies exactly when both test frames are supplied. -/
def FitInput.freqList (inp : FitInput) : List (Option Int) :=
  [inp.xFreq, inp.yFreq] ++
    (match inp.xTest, inp.yTest with
     | some xt, some yt => [xt, yt.2]
     | _, _ => [])

/-- Errors `ESRNN.fit` can raise at its validation asserts, and the
propagated failure of the training loop. -/
inductive FitErr where
  | badXCols
  | badYCols
  | benchmarkMissing
  | freqMismatch
  | trainFailed
  deriving DecidableEq

/-- Embedding of `ESRNN.fit` up to the `self._fitted = True` write
(src/ESRNN/ESRNN.py lines 394-453), i.e. everything before `train` is
invoked: schema asserts, benchmark-column assert, category vocabulary
(`np.unique` over the exogenous column, enumerated into
`category_to_idx`), iterator construction, network instantiation
(`instantiate_esrnn`, lines 457-462, which records `exogenous_size` and
`n_series` on the config and allocates a fresh network module),
frequency validation (`len(set(frequencies)) <= 1`), recording of the
agreed frequency, and the fitted-flag write.  Returns the state as
mutated up to the point of a failed assert. -/
def fitValidate (st : ModelState) (inp : FitInput) :
    ModelState × Option FitErr :=
  if ¬ (["unique_id", "ds", "x"].all (fun c => inp.xCols.contains c)) then
    (st, some .badXCols)
  else if ¬ (["unique_id", "ds", "y"].all (fun c => inp.yCols.contains c)) then
    (st, some .badYCols)
  else if ¬ ((match inp.yTest with
              | some yt => yt.1.contains inp.y_hat_benchmark
              | none => true) = true) then
    ({ st with hasTest := inp.yTest.isSome }, some .benchmarkMissing)
  else
    let st0 := { st with hasTest := inp.yTest.isSome }
    let unique_categories := npUnique (inp.series.map (fun s => s.x))
    let mc1 := { st0.mc with
      category_to_idx :=
        some (unique_categories.enum.map (fun p => (p.2, p.1))) }
    let exogenous_size := unique_categories.length
    let dl := iteratorMake mc1 inp.series
    let n_series := dl.n_series
    let mc2 := { mc1 with
      exogenous_size := some exogenous_size
      n_series := some n_series }
    let st1 := { st0 with
      mc := mc2
      dataloader := some dl
      netId := some st0.netCounter
      netCounter := st0.netCounter + 1 }
    let frequencies := inp.freqList
    if ¬ (frequencies.dedup.length ≤ 1) then (st1, some .freqMismatch)
    else
      let st2 := { st1 with
        mc := { st1.mc with frequency := inp.xFreq } }
      ({ st2 with fitted := true }, none)

/-- Embedding of `ESRNN.fit` (src/ESRNN/ESRNN.py lines 358-455):
`fitValidate` followed by the `train` call.  `failAfter = none` means the
training loop runs to completion; `failAfter = some k` models an
exception raised by the external tensor engine after `k` completed
epochs, which propagates to the caller with the state mutated so far. -/
def fitModel (st : ModelState) (inp : FitInput) (failAfter : Option Nat) :
    ModelState × Option FitErr :=
  match fitValidate st inp with
  | (st1, none) =>
    match failAfter with
    | none => (trainModel st1 st1.mc.max_epochs, none)
    | some k =>
      (trainModel st1 (min k st1.mc.max_epochs), some .trainFailed)
  | r => r

/-- Embedding of the configuration effect of `ESRNN.save`
(src/ESRNN/ESRNN.py lines 604-607): when a `copy` argument is given it is
recorded on the config (`self.mc.copy = copy`); the artifact writing
itself is file I/O, an external collaborator. -/
def saveModel (st : ModelState) (copyArg : Option Int) : ModelState :=
  match copyArg with
  | some c => { st with mc := { st.mc with copy := some c } }
  | none => st

/-- Embedding of the configuration effect of `ESRNN.load`
(src/ESRNN/ESRNN.py lines 623-626): identical `copy` recording as
`save`; reading the artifacts is file I/O, an external collaborator. -/
def loadModel (st : ModelState) (copyArg : Option Int) : ModelState :=
  match copyArg with
  | some c => { st with mc := { st.mc with copy := some c } }
  | none => st

/-- Projection of a configuration onto the fields the spec declares
immutable after construction: the four fields the lifecycle is allowed to
record (`exogenous_size`, `n_series`, `frequency`, `category_to_idx`) are
blanked out, every other field is kept. -/
def ModelConfig.frozenPart (mc : ModelConfig) : ModelConfig :=
  { mc with
    exogenous_size := none
    n_series := none
    frequency := none
    category_to_idx := none }

/-- Projection of a configuration onto the fields no operation writes at
all: as `frozenPart`, additionally blanking the `copy` index that `save`
and `load` record. -/
def ModelConfig.frozenPartNoCopy (mc : ModelConfig) : ModelConfig :=
  { mc.frozenPart with copy := none }

/-- A member of `self.esrnn_ensemble`: a PyTorch module object identified
by its identity tag.  `fromEpoch` is the epoch whose end produced the
deep copy (`none` for the single pre-training copy), `evalMode` whether
`eval()` was called on it. -/
structure Snapshot where
  objId : Nat
  fromEpoch : Option Nat
  evalMode : Bool
  deriving DecidableEq

/-- Identity tag of the live network `self.esrnn`; deep copies receive
the later tags (1 for the pre-training copy, `k + 2` for the copy taken
at the end of epoch `k`), in allocation order. -/
def liveNetId : Nat := 0

/-- Embedding of `self.esrnn_ensemble = [deepcopy(self.esrnn).to(device)] * 5`
(src/ESRNN/ESRNN.py line 160): ONE deep copy of the live network is taken
(fresh tag 1) and the Python `* 5` repeats that same reference five
times, so all five initial members alias each other; `eval()` is not
called on it. -/
def ensembleInit : List Snapshot :=
  List.replicate 5 { objId := 1, fromEpoch := none, evalMode := false }

/-- Embedding of the per-epoch ensemble update (src/ESRNN/ESRNN.py lines
222-226): a fresh deep copy of the live network is taken (tag
`epoch + 2`), put into eval mode, the oldest member is popped from the
front and the copy appended at the back.  `List.drop 1` is `pop(0)`; the
list is never empty (its length is invariantly 5). -/
def ensembleEpochStep (epoch : Nat) (ens : List Snapshot) : List Snapshot :=
  ens.drop 1 ++ [{ objId := epoch + 2, fromEpoch := some epoch, evalMode := true }]

/-- The ensemble list after `e` completed epochs of `ESRNN.train` with
`ensemble` enabled. -/
def ensembleAfter : Nat → List Snapshot
  | 0 => ensembleInit
  | e + 1 => ensembleEpochStep e (ensembleAfter e)

/-- A train frame and a valid single-series fit input used to instantiate
hypotheses at concrete values. -/
def sampleFitInput : FitInput :=
  { xCols := ["unique_id", "ds", "x"]
    yCols := ["unique_id", "ds", "y"]
    xFreq := some 1
    yFreq := some 1
    series := [{ unique_id := "s1", x := 0, last_ds := 20, length := 12 }]
    xTest := none
    yTest := none
    y_hat_benchmark := "y_hat_naive2" }

/-- Claim C3: the derived fields of a freshly constructed `ModelConfig`
satisfy `min_series_length = input_size + output_size`,
`max_series_length = max_periods * input_size + min_series_length`, and
`naive_seasonality` is the first seasonality period, or 1 when the
seasonality list is empty. -/
theorem C3_modelconfig_derived_fields
    (max_epochs batch_size batch_size_test : Nat) (freq_of_test : Int)
    (learning_rate : Rat) (lr_scheduler_step_size : Nat) (lr_decay : Rat)
    (per_series_lr_multip gradient_eps gradient_clipping_threshold : Rat)
    (rnn_weight_decay noise_std level_variability_penalty : Rat)
    (testing_percentile training_percentile : Rat) (ensemble : Bool)
    (cell_type : String) (state_hsize : Nat) (dilations : List (List Nat))
    (add_nl_layer : Bool) (seasonality : List Nat)
    (input_size output_size : Nat) (frequency : Option Int)
    (max_periods random_seed : Nat) (device root_dir : String) :
    (ModelConfig.init max_epochs batch_size batch_size_test freq_of_test
        learning_rate lr_scheduler_step_size lr_decay per_series_lr_multip
        gradient_eps gradient_clipping_threshold rnn_weight_decay noise_std
        level_variability_penalty testing_percentile training_percentile
        ensemble cell_type state_hsize dilations add_nl_layer seasonality
        input_size output_size frequency max_periods random_seed device
        root_dir).min_series_length = input_size + output_size ∧
    (ModelConfig.init max_epochs batch_size batch_size_test freq_of_test
        learning_rate lr_scheduler_step_size lr_decay per_series_lr_multip
        gradient_eps gradient_clipping_threshold rnn_weight_decay noise_std
        level_variability_penalty testing_percentile training_percentile
        ensemble cell_type state_hsize dilations add_nl_layer seasonality
        input_size output_size frequency max_periods random_seed device
        root_dir).max_series_length =
      max_periods * input_size + (input_size + output_size) ∧
    (ModelConfig.init max_epochs batch_size batch_size_test freq_of_test
        learning_rate lr_scheduler_step_size lr_decay per_series_lr_multip
        gradient_eps gradient_clipping_threshold rnn_weight_decay noise_std
        level_variability_penalty testing_percentile training_percentile
        ensemble cell_type state_hsize dilations add_nl_layer seasonality
        input_size output_size frequency max_periods random_seed device
        root_dir).naive_seasonality = seasonality.headD 1 := by
  refine ⟨rfl, rfl, ?_⟩
  cases seasonality <;> simp [ModelConfig.init]

/-- Claim C7: with a positive `freq_of_test` and a test panel supplied,
the per-epoch held-out evaluation condition of `ESRNN.train` holds at
epoch `e` exactly when `e` is divisible by `freq_of_test`; in particular
it holds at epoch 0, the first epoch. -/
theorem C7_eval_epoch_condition (f : Int) (hf : 0 < f) (e : Nat) :
    (evalRunsAt f true e = true ↔ (e : Int) % f = 0) ∧
    evalRunsAt f true 0 = true := by
  have key : ∀ k : Nat, (evalRunsAt f true k = true ↔ (k : Int) % f = 0) := by
    intro k
    have hmod : Int.fmod (k : Int) f = (k : Int) % f :=
      Int.fmod_eq_emod _ (le_of_lt hf)
    unfold evalRunsAt
    rw [hmod]
    simp [hf, Int.emod_emod_of_dvd]
  exact ⟨key e, (key 0).mpr (by simp)⟩

theorem C7_witness :
    evalRunsAt 3 true 6 = true ∧ evalRunsAt 3 true 0 = true := by
  have h := C7_eval_epoch_condition 3 (by decide) 6
  exact ⟨h.1.mpr (by decide), h.2⟩

/-- Claim C1: calling `predict` on an unfitted instance raises without
touching the network or dataloader: the operation returns an error, the
instance state (module mode, dataloader) is completely unchanged, and
whenever the supplied frame has the `unique_id` column the error is the
"Model not fitted yet" assert. -/
theorem C1_predict_unfitted (st : ModelState) (xdf : XFrame)
    (forecasts : List (List Rat)) (h : st.fitted = false) :
    (∃ e, (predictModel st xdf forecasts).2 = .error e) ∧
    (predictModel st xdf forecasts).1 = st ∧
    (xdf.hasUniqueId = true →
      (predictModel st xdf forecasts).2 = .error .notFitted) := by
  unfold predictModel
  by_cases hu : xdf.hasUniqueId = true <;>
    simp [hu, h]

theorem C1_witness :
    ((ESRNN.new defaultMC).fitted = false) ∧
    (predictModel (ESRNN.new defaultMC)
        { hasUniqueId := true, hasDs := true, rows := [] } []).2 =
      .error .notFitted ∧
    (predictModel (ESRNN.new defaultMC)
        { hasUniqueId := true, hasDs := true, rows := [] } []).1 =
      ESRNN.new defaultMC := by
  have h := C1_predict_unfitted (ESRNN.new defaultMC)
    { hasUniqueId := true, hasDs := true, rows := [] } [] rfl
  exact ⟨rfl, h.2.2 rfl, h.2.1⟩

/-- The per-epoch state effect of `train` never touches the config, the
fitted flag, the network identity, the tag counter or the test-presence
flag: it only switches module modes and resizes-and-restores the
dataloader. -/
lemma trainEpochState_frame (st : ModelState) (e : Nat) :
    (trainEpochState st e).mc = st.mc ∧
    (trainEpochState st e).fitted = st.fitted ∧
    (trainEpochState st e).netId = st.netId ∧
    (trainEpochState st e).netCounter = st.netCounter ∧
    (trainEpochState st e).hasTest = st.hasTest := by
  unfold trainEpochState model_evaluationModel predictStateEffect
  by_cases hrun : evalRunsAt st.mc.freq_of_test st.hasTest e = true <;>
    cases hdl : st.dataloader <;> cases hn : st.mc.n_series <;>
      simp [hrun, hdl, hn]

/-- The epoch loop of `train` preserves the config, the fitted flag, the
network identity, the tag counter and the test-presence flag. -/
lemma trainModel_frame (st : ModelState) (n : Nat) :
    (trainModel st n).mc = st.mc ∧
    (trainModel st n).fitted = st.fitted ∧
    (trainModel st n).netId = st.netId ∧
    (trainModel st n).netCounter = st.netCounter ∧
    (trainModel st n).hasTest = st.hasTest := by
  unfold trainModel
  induction n with
  | zero => simp
  | succ k ih =>
    rw [List.range_succ, List.foldl_append]
    simp only [List.foldl_cons, List.foldl_nil]
    have h := trainEpochState_frame ((List.range k).foldl trainEpochState st) k
    exact ⟨h.1.trans ih.1, h.2.1.trans ih.2.1, h.2.2.1.trans ih.2.2.1,
      h.2.2.2.1.trans ih.2.2.2.1, h.2.2.2.2.trans ih.2.2.2.2⟩

/-- The validation outcome of `fit` never consults the fitted flag, and a
successful validation records a freshly allocated network, bumps the tag
counter, sets the fitted flag and records the agreed frequency. -/
lemma fitValidate_shape (st : ModelState) (inp : FitInput) :
    (fitValidate st inp).2 = (fitValidate { st with fitted := false } inp).2 ∧
    ((fitValidate st inp).2 = none →
      (fitValidate st inp).1.netId = some st.netCounter ∧
      (fitValidate st inp).1.netCounter = st.netCounter + 1 ∧
      (fitValidate st inp).1.fitted = true ∧
      (fitValidate st inp).1.mc.frequency = inp.xFreq ∧
      (fitValidate st inp).1.mc.max_epochs = st.mc.max_epochs) := by
  unfold fitValidate
  split_ifs <;> by_cases h4 : 1 < inp.freqList.dedup.length <;> simp_all

/-- A fitted instance never fails `predict`'s fitted assert. -/
lemma predict_not_notFitted (st : ModelState) (xdf : XFrame)
    (fc : List (List Rat)) (h : st.fitted = true) :
    (predictModel st xdf fc).2 ≠ .error .notFitted := by
  unfold predictModel
  by_cases hu : xdf.hasUniqueId = true <;>
    cases hdl : st.dataloader <;> cases hn : st.mc.n_series <;>
      simp [hu, h, hdl, hn]

theorem C2_counterexample :
    ((fitModel (ESRNN.new defaultMC) sampleFitInput none).1.fitted = true) ∧
    ((fitModel ((fitModel (ESRNN.new defaultMC) sampleFitInput none).1)
        sampleFitInput none).2 = none) := by
  decide

/-- Claim C2 (amended): `fit` performs no fitted-state check at all: its
outcome is identical on a fitted and an unfitted instance, a second call
is accepted rather than rejected, and a completed call always leaves the
instance with a freshly instantiated network (new identity tag) rather
than the previously trained one. -/
theorem C2_refit_not_rejected (st : ModelState) (inp : FitInput)
    (failAfter : Option Nat) :
    (fitModel st inp failAfter).2 =
      (fitModel { st with fitted := false } inp failAfter).2 ∧
    ((fitModel st inp failAfter).2 = none →
      (fitModel st inp failAfter).1.netId = some st.netCounter ∧
      (fitModel st inp failAfter).1.netCounter = st.netCounter + 1 ∧
      (fitModel st inp failAfter).1.fitted = true) := by
  have hs := fitValidate_shape st inp
  unfold fitModel
  cases hv : fitValidate st inp with
  | mk st1 err =>
    cases hv2 : fitValidate { st with fitted := false } inp with
    | mk st2 err2 =>
      have herr : err = err2 := by
        have := hs.1
        rw [hv, hv2] at this
        exact this
      cases err with
      | none =>
        cases err2 with
        | none =>
          constructor
          · cases failAfter <;> simp
          · intro _
            have hsucc := hs.2 (by rw [hv])
            rw [hv] at hsucc
            simp only at hsucc
            cases failAfter with
            | none =>
              have hf := trainModel_frame st1 st1.mc.max_epochs
              simp only
              exact ⟨hf.2.2.1.trans hsucc.1, hf.2.2.2.1.trans hsucc.2.1,
                hf.2.1.trans hsucc.2.2.1⟩
            | some k => simp at *
        | some e => exact absurd herr (by simp)
      | some e =>
        cases err2 with
        | none => exact absurd herr (by simp)
        | some e2 =>
          cases herr
          constructor
          · rfl
          · intro hcontra
            simp at hcontra

theorem C2_witness :
    ((fitModel ((fitModel (ESRNN.new defaultMC) sampleFitInput none).1)
        sampleFitInput none).1.netId = some 1) ∧
    ((fitModel ((fitModel (ESRNN.new defaultMC) sampleFitInput none).1)
        sampleFitInput none).1.fitted = true) := by
  have st1def :
      (fitModel (ESRNN.new defaultMC) sampleFitInput none).1.netCounter
        = 1 := by
    decide
  have h := C2_refit_not_rejected
    (fitModel (ESRNN.new defaultMC) sampleFitInput none).1 sampleFitInput none
  have hsucc := h.2 (by decide)
  exact ⟨by rw [hsucc.1, st1def], hsucc.2.2⟩

/-- Claim C9: `fit` sets the fitted flag before the training loop runs:
whenever validation succeeds, the state handed to `train` is already
marked fitted, a training failure after any number of epochs still
leaves the instance marked fitted (with the error propagated), and on
the during-training state the fitted asserts of
`evaluate_model_prediction` and `predict` already pass. -/
theorem C9_fitted_set_before_train (st st1 : ModelState) (inp : FitInput)
    (h : fitValidate st inp = (st1, none)) (k : Nat) (xdf : XFrame)
    (fc : List (List Rat)) :
    st1.fitted = true ∧
    (fitModel st inp (some k)).1.fitted = true ∧
    (fitModel st inp (some k)).2 = some .trainFailed ∧
    (evaluate_model_predictionModel st1 xdf fc).2 ≠ .error .notFitted ∧
    (predictModel st1 xdf fc).2 ≠ .error .notFitted := by
  have hs := (fitValidate_shape st inp).2 (by rw [h])
  rw [h] at hs
  simp only at hs
  have hfit : st1.fitted = true := hs.2.2.1
  have hmodel : fitModel st inp (some k) =
      (trainModel st1 (min k st1.mc.max_epochs), some .trainFailed) := by
    unfold fitModel
    rw [h]
  refine ⟨hfit, ?_, ?_, ?_, predict_not_notFitted st1 xdf fc hfit⟩
  · rw [hmodel]
    exact (trainModel_frame st1 _).2.1.trans hfit
  · rw [hmodel]
  · unfold evaluate_model_predictionModel
    simp [hfit]
    exact predict_not_notFitted st1 xdf fc hfit

theorem C9_witness :
    ((fitValidate (ESRNN.new defaultMC) sampleFitInput).1.fitted = true) ∧
    ((fitModel (ESRNN.new defaultMC) sampleFitInput (some 3)).1.fitted
      = true) ∧
    ((fitModel (ESRNN.new defaultMC) sampleFitInput (some 3)).2
      = some .trainFailed) := by
  have h : fitValidate (ESRNN.new defaultMC) sampleFitInput =
      ((fitValidate (ESRNN.new defaultMC) sampleFitInput).1, none) := by
    rfl
  have hc := C9_fitted_set_before_train (ESRNN.new defaultMC)
    (fitValidate (ESRNN.new defaultMC) sampleFitInput).1 sampleFitInput h 3
    { hasUniqueId := true, hasDs := true, rows := [] } []
  exact ⟨hc.1, hc.2.1, hc.2.2.1⟩

/-- A list's deduplication has at most one element exactly when all its
elements are equal (the `len(set(xs)) <= 1` idiom of `fit`). -/
lemma dedup_length_le_one_iff {α : Type} [DecidableEq α] (l : List α) :
    l.dedup.length ≤ 1 ↔ ∀ a ∈ l, ∀ b ∈ l, a = b := by
  constructor
  · intro h a ha b hb
    rw [← List.mem_dedup] at ha hb
    rcases hd : l.dedup with _ | ⟨c, _ | ⟨d, t⟩⟩
    · rw [hd] at ha
      exact absurd ha (List.not_mem_nil a)
    · rw [hd] at ha hb
      simp only [List.mem_singleton] at ha hb
      rw [ha, hb]
    · rw [hd] at h
      simp at h
  · intro h
    rcases hd : l.dedup with _ | ⟨c, _ | ⟨d, t⟩⟩
    · simp [hd]
    · simp [hd]
    · exfalso
      have hc : c ∈ l := List.mem_dedup.mp (by rw [hd]; exact List.mem_cons_self c _)
      have hdm : d ∈ l := List.mem_dedup.mp
        (by rw [hd]; exact List.mem_cons_of_mem c (List.mem_cons_self d t))
      have hnd := l.nodup_dedup
      rw [hd] at hnd
      have hne : c ≠ d := by
        intro hcd
        exact (List.nodup_cons.mp hnd).1 (hcd ▸ List.mem_cons_self d t)
      exact hne (h c hc d hdm)

/-- The frequency-validation step of `fit`: with the schema asserts
passing, validation fails with the frequency-mismatch assert exactly when
the gathered frequency list has more than one distinct value, and on
success the recorded frequency is `frequencies[0]`, the train-X one. -/
lemma fitValidate_freq (st : ModelState) (inp : FitInput)
    (hx : "unique_id" ∈ inp.xCols ∧ "ds" ∈ inp.xCols ∧ "x" ∈ inp.xCols)
    (hy : "unique_id" ∈ inp.yCols ∧ "ds" ∈ inp.yCols ∧ "y" ∈ inp.yCols)
    (hb : ∀ yt ∈ inp.yTest, inp.y_hat_benchmark ∈ yt.1) :
    ((fitValidate st inp).2 = some .freqMismatch ↔
      ¬ inp.freqList.dedup.length ≤ 1) ∧
    (inp.freqList.dedup.length ≤ 1 →
      (fitValidate st inp).2 = none ∧
      (fitValidate st inp).1.mc.frequency = inp.xFreq) := by
  have hc1 : (["unique_id", "ds", "x"].all
      (fun c => inp.xCols.contains c)) = true := by
    simp only [List.all_cons, List.all_nil, Bool.and_eq_true, Bool.and_true]
    exact ⟨List.elem_eq_true_of_mem hx.1, List.elem_eq_true_of_mem hx.2.1,
      List.elem_eq_true_of_mem hx.2.2⟩
  have hc2 : (["unique_id", "ds", "y"].all
      (fun c => inp.yCols.contains c)) = true := by
    simp only [List.all_cons, List.all_nil, Bool.and_eq_true, Bool.and_true]
    exact ⟨List.elem_eq_true_of_mem hy.1, List.elem_eq_true_of_mem hy.2.1,
      List.elem_eq_true_of_mem hy.2.2⟩
  have hc3 : ((match inp.yTest with
      | some yt => yt.1.contains inp.y_hat_benchmark
      | none => true) = true) := by
    cases hyt : inp.yTest with
    | none => rfl
    | some yt => exact List.elem_eq_true_of_mem (hb yt (by rw [hyt]; rfl))
  unfold fitValidate
  rw [if_neg (not_not_intro hc1), if_neg (not_not_intro hc2),
    if_neg (not_not_intro hc3)]
  by_cases h4 : inp.freqList.dedup.length ≤ 1 <;> simp [h4]

/-- Claim C6: `fit` gathers the inferred frequencies of the supplied
panels (train X and y, plus test X and y when both test frames are
given: `FitInput.freqList`) and fails with the frequency-mismatch assert
exactly when they are not all equal; on success the agreed frequency is
recorded in the config. -/
theorem C6_frequency_agreement (st : ModelState) (inp : FitInput)
    (hx : "unique_id" ∈ inp.xCols ∧ "ds" ∈ inp.xCols ∧ "x" ∈ inp.xCols)
    (hy : "unique_id" ∈ inp.yCols ∧ "ds" ∈ inp.yCols ∧ "y" ∈ inp.yCols)
    (hb : ∀ yt ∈ inp.yTest, inp.y_hat_benchmark ∈ yt.1) :
    ((fitModel st inp none).2 = some .freqMismatch ↔
      ¬ ∀ a ∈ inp.freqList, ∀ b ∈ inp.freqList, a = b) ∧
    ((∀ a ∈ inp.freqList, ∀ b ∈ inp.freqList, a = b) →
      (fitModel st inp none).2 = none ∧
      (fitModel st inp none).1.mc.frequency = inp.xFreq ∧
      ∀ a ∈ inp.freqList, a = inp.xFreq) := by
  have hv := fitValidate_freq st inp hx hy hb
  have hxmem : inp.xFreq ∈ inp.freqList := by
    unfold FitInput.freqList
    exact List.mem_cons_self _ _
  have hfm : (fitModel st inp none).2 = (fitValidate st inp).2 ∧
      ((fitValidate st inp).2 = none →
        (fitModel st inp none).1.mc = (fitValidate st inp).1.mc) := by
    unfold fitModel
    cases hval : fitValidate st inp with
    | mk st1 err =>
      cases err with
      | none =>
        exact ⟨rfl, fun _ => (trainModel_frame st1 st1.mc.max_epochs).1⟩
      | some e => exact ⟨rfl, fun hc => absurd hc (by simp)⟩
  constructor
  · rw [hfm.1, hv.1, not_iff_not, dedup_length_le_one_iff]
  · intro hall
    have h4 : inp.freqList.dedup.length ≤ 1 :=
      (dedup_length_le_one_iff inp.freqList).mpr hall
    have hs := hv.2 h4
    exact ⟨hfm.1.trans hs.1,
      (congrArg ModelConfig.frequency (hfm.2 hs.1)).trans hs.2,
      fun a ha => hall a ha inp.xFreq hxmem⟩

theorem C6_witness :
    ((fitModel (ESRNN.new defaultMC) sampleFitInput none).2 = none) ∧
    ((fitModel (ESRNN.new defaultMC) sampleFitInput none).1.mc.frequency
      = some 1) := by
  have h := C6_frequency_agreement (ESRNN.new defaultMC) sampleFitInput
    (by decide) (by decide) (by intro yt hyt; cases hyt)
  have hs := h.2 (by decide)
  exact ⟨hs.1, hs.2.1⟩

/-- The validation phase of `fit` rewrites only the four recorded config
fields (`category_to_idx`, `exogenous_size`, `n_series`, `frequency`):
its `frozenPart` projection is untouched. -/
lemma fitValidate_frozenPart (st : ModelState) (inp : FitInput) :
    (fitValidate st inp).1.mc.frozenPart = st.mc.frozenPart := by
  unfold fitValidate
  split_ifs <;> by_cases h4 : 1 < inp.freqList.dedup.length <;>
    first
      | rfl
      | (simp_all [ModelConfig.frozenPart])

theorem C8_counterexample :
    ¬ ((saveModel (ESRNN.new defaultMC) (some 3)).mc.frozenPart
        = (ESRNN.new defaultMC).mc.frozenPart) := by
  intro h
  have hcopy := congrArg ModelConfig.copy h
  simp [saveModel, ModelConfig.frozenPart, ESRNN.new, defaultMC,
    ModelConfig.init] at hcopy

/-- Claim C8 (amended): after construction, `fit`, `train`, `predict`,
`evaluate_model_prediction`, `model_evaluation` and
`per_series_evaluation` mutate no config field other than
`exogenous_size`, `n_series`, the inferred `frequency` and the
category-to-index mapping; `save` and `load` additionally record the
`copy` index when one is passed, and mutate nothing else. -/
theorem C8_config_frame (st : ModelState) (inp : FitInput)
    (failAfter : Option Nat) (xdf : XFrame) (fc : List (List Rat))
    (copyArg : Option Int) (n : Nat) :
    ((fitModel st inp failAfter).1.mc.frozenPart = st.mc.frozenPart) ∧
    ((trainModel st n).mc = st.mc) ∧
    ((predictModel st xdf fc).1.mc = st.mc) ∧
    ((evaluate_model_predictionModel st xdf fc).1.mc = st.mc) ∧
    ((model_evaluationModel st).1.mc = st.mc) ∧
    ((per_series_evaluationModel st).1.mc = st.mc) ∧
    ((saveModel st copyArg).mc.frozenPartNoCopy = st.mc.frozenPartNoCopy) ∧
    ((loadModel st copyArg).mc.frozenPartNoCopy = st.mc.frozenPartNoCopy) := by
  refine ⟨?_, (trainModel_frame st n).1, ?_, ?_, ?_, ?_, ?_, ?_⟩
  · unfold fitModel
    cases hval : fitValidate st inp with
    | mk st1 err =>
      have h1 : st1.mc.frozenPart = st.mc.frozenPart := by
        have := fitValidate_frozenPart st inp
        rw [hval] at this
        exact this
      cases err with
      | none =>
        cases failAfter <;>
          simp only [(trainModel_frame st1 _).1, h1]
      | some e => exact h1
  · unfold predictModel predictStateEffect
    by_cases hu : xdf.hasUniqueId = true <;>
      by_cases hf : st.fitted = true <;>
      cases hdl : st.dataloader <;> cases hn : st.mc.n_series <;>
        simp [hu, hf, hdl, hn]
  · unfold evaluate_model_predictionModel predictModel predictStateEffect
    by_cases hu : xdf.hasUniqueId = true <;>
      by_cases hf : st.fitted = true <;>
      cases hdl : st.dataloader <;> cases hn : st.mc.n_series <;>
        simp [hu, hf, hdl, hn]
  · unfold model_evaluationModel
    cases hdl : st.dataloader <;> cases hn : st.mc.n_series <;>
      simp [hdl, hn]
  · unfold per_series_evaluationModel
    cases hdl : st.dataloader <;> cases hn : st.mc.n_series <;>
      simp [hdl, hn]
  · unfold saveModel
    cases copyArg <;> simp [ModelConfig.frozenPartNoCopy, ModelConfig.frozenPart]
  · unfold loadModel
    cases copyArg <;> simp [ModelConfig.frozenPartNoCopy, ModelConfig.frozenPart]

/-- Claim C10: every operation that re-batches for evaluation
(`model_evaluation`, `per_series_evaluation`, `predict`) runs its
evaluation loop at batch size `min(n_series, batch_size_test)` and
restores the dataloader to the configured training `batch_size` before
returning, so the batch size observed between public calls is the
training one. -/
theorem C10_eval_batch_size_discipline (st : ModelState)
    (dl : DataLoaderState) (n : Nat) (xdf : XFrame) (fc : List (List Rat))
    (hdl : st.dataloader = some dl) (hn : st.mc.n_series = some n)
    (hfit : st.fitted = true) (hu : xdf.hasUniqueId = true) :
    ((model_evaluationModel st).1.dataloader.map
        (fun d => d.batch_size) = some st.mc.batch_size) ∧
    ((model_evaluationModel st).2.map (fun d => d.batch_size)
        = some (min n st.mc.batch_size_test)) ∧
    ((per_series_evaluationModel st).1.dataloader.map
        (fun d => d.batch_size) = some st.mc.batch_size) ∧
    ((per_series_evaluationModel st).2.map (fun d => d.batch_size)
        = some (min n st.mc.batch_size_test)) ∧
    ((predictModel st xdf fc).1.dataloader.map
        (fun d => d.batch_size) = some st.mc.batch_size) ∧
    (∃ out, (predictModel st xdf fc).2 = .ok out ∧
      out.usedBatchSize = min n st.mc.batch_size_test) := by
  unfold model_evaluationModel per_series_evaluationModel predictModel
    predictStateEffect
  simp [hdl, hn, hfit, hu, DataLoaderState.update_batch_size]

theorem C10_witness :
    ((model_evaluationModel
        (fitValidate (ESRNN.new defaultMC) sampleFitInput).1).1.dataloader.map
        (fun d => d.batch_size) = some 1) ∧
    ((model_evaluationModel
        (fitValidate (ESRNN.new defaultMC) sampleFitInput).1).2.map
        (fun d => d.batch_size) = some 1) ∧
    ((per_series_evaluationModel
        (fitValidate (ESRNN.new defaultMC) sampleFitInput).1).1.dataloader.map
        (fun d => d.batch_size) = some 1) := by
  have h := C10_eval_batch_size_discipline
    (fitValidate (ESRNN.new defaultMC) sampleFitInput).1
    { batch_size := 1, n_batches := 1,
      series := [{ unique_id := "s1", x := 0, last_ds := 20, length := 12 }] }
    1 { hasUniqueId := true, hasDs := true, rows := [] } [] rfl rfl rfl rfl
  exact ⟨h.1, h.2.1, h.2.2.1⟩

/-- The ensemble list always holds exactly 5 members. -/
lemma ensembleAfter_length : ∀ e, (ensembleAfter e).length = 5 := by
  intro e
  induction e with
  | zero => rfl
  | succ k ih =>
    unfold ensembleAfter ensembleEpochStep
    simp [ih]

/-- The first five entries of `List.range'`, unfolded. -/
lemma range'_five (s : Nat) :
    List.range' s 5 = [s, s + 1, s + 2, s + 3, s + 4] := by
  simp [List.range'_succ]

/-- Closed form of the ensemble after five or more completed epochs: the
deep copies taken at the five most recent epochs, oldest first. -/
lemma ensembleAfter_closed (e : Nat) (he : 5 ≤ e) :
    ensembleAfter e = (List.range' (e - 5) 5).map
      (fun k => { objId := k + 2, fromEpoch := some k, evalMode := true }) := by
  induction e with
  | zero => omega
  | succ k ih =>
    by_cases hk : 5 ≤ k
    · have hc := ih hk
      unfold ensembleAfter ensembleEpochStep
      rw [hc, range'_five, range'_five]
      simp only [List.map_cons, List.map_nil, List.drop_succ_cons,
        List.drop_zero, List.cons_append, List.nil_append, List.cons.injEq,
        Snapshot.mk.injEq, Option.some.injEq, and_true, true_and]
      omega
    · have hk4 : k = 4 := by omega
      subst hk4
      rfl

/-- Claim C4: with ensembling enabled the ensemble list always holds
exactly 5 members, maintained FIFO; after 5 or more completed epochs it
is exactly the deep copies taken at the 5 most recent epochs (oldest
first), every member a frozen (eval-mode) snapshot from a distinct epoch,
no two members aliasing each other and no member aliasing the live
network. -/
theorem C4_ensemble_fifo (e : Nat) (he : 5 ≤ e) :
    (∀ k, (ensembleAfter k).length = 5) ∧
    ensembleAfter e = (List.range' (e - 5) 5).map
      (fun k => { objId := k + 2, fromEpoch := some k, evalMode := true }) ∧
    (ensembleAfter e).Pairwise
      (fun a b => a.objId ≠ b.objId ∧ a.fromEpoch ≠ b.fromEpoch) ∧
    (∀ s ∈ ensembleAfter e, s.objId ≠ liveNetId ∧ s.evalMode = true) := by
  refine ⟨ensembleAfter_length, ensembleAfter_closed e he, ?_, ?_⟩
  · rw [ensembleAfter_closed e he, List.pairwise_map]
    apply List.Pairwise.imp ?_ (List.pairwise_lt_range' (e - 5) 5)
    intro a b hab
    constructor
    · simp only [ne_eq]
      omega
    · simp only [ne_eq, Option.some.injEq]
      omega
  · intro s hs
    rw [ensembleAfter_closed e he] at hs
    simp only [List.mem_map] at hs
    obtain ⟨k, _, rfl⟩ := hs
    exact ⟨by simp [liveNetId], rfl⟩

theorem C4_witness :
    ((ensembleAfter 7).length = 5) ∧
    (ensembleAfter 7 = (List.range' 2 5).map
      (fun k => { objId := k + 2, fromEpoch := some k, evalMode := true })) := by
  have h := C4_ensemble_fifo 7 (by decide)
  exact ⟨h.1 7, h.2.1⟩

/-- A forecast-panel row built from a series id and a (date, value)
pair, the shape of the rows `yHatPanel` zips together. -/
def yRowOf (uid : String) (q : Int × Rat) : YRow :=
  { unique_id := uid, ds := q.1, y_hat := q.2 }

/-- Zipping a replicated value against a list pairs it with every
element. -/
lemma replicate_zip {α β : Type} (a : α) (l : List β) :
    (List.replicate l.length a).zip l = l.map (fun b => (a, b)) := by
  induction l with
  | nil => rfl
  | cons b t ih => simp [List.replicate_succ, ih]

/-- The head block of the zipped panel columns: one series id zipped
against its own date/value column. -/
lemma replicate_zip_map (a : String) (l : List (Int × Rat)) (os : Nat)
    (h : l.length = os) :
    ((List.replicate os a).zip l).map (fun p => yRowOf p.1 p.2) =
      l.map (yRowOf a) := by
  subst h
  rw [replicate_zip, List.map_map]
  rfl

/-- With the forecasts aligned to the series (one value list of length
`output_size` per series), the zipped `Y_hat_panel` columns decompose
into consecutive per-series blocks. -/
lemma yHatPanel_blocks (os : Nat) (f : Int) (series : List SeriesData)
    (forecasts : List (List Rat)) (hlen : forecasts.length = series.length)
    (hall : ∀ g ∈ forecasts, g.length = os) :
    yHatPanel series os f forecasts =
      (series.zip forecasts).flatMap (fun p =>
        ((panelDs f os p.1.last_ds).zip p.2).map (yRowOf p.1.unique_id)) := by
  induction series generalizing forecasts with
  | nil =>
    cases forecasts with
    | nil => rfl
    | cons g gs => simp at hlen
  | cons s ss ih =>
    cases forecasts with
    | nil => simp at hlen
    | cons g gs =>
      have hg : g.length = os := hall g (List.mem_cons_self g gs)
      have hgs : ∀ g2 ∈ gs, g2.length = os :=
        fun g2 h2 => hall g2 (List.mem_cons_of_mem g h2)
      have hlen2 : gs.length = ss.length := by simpa using hlen
      have hpdos : (panelDs f os s.last_ds).length = os := by
        unfold panelDs
        rw [List.length_map, List.length_range]
      have hpd : (panelDs f os s.last_ds).length = g.length := by
        rw [hpdos, hg]
      have hrz : (List.replicate os s.unique_id).length =
          ((panelDs f os s.last_ds).zip g).length := by
        rw [List.length_replicate, List.length_zip, hpdos, hg, min_self]
      unfold yHatPanel
      simp only [List.flatMap_cons, List.flatten_cons, List.zip_cons_cons]
      rw [List.zip_append hpd, List.zip_append hrz, List.map_append]
      congr 1
      · exact replicate_zip_map s.unique_id _ os
          (by rw [List.length_zip, hpdos, hg, min_self])
      · exact ih gs hlen2 hgs

/-- With distinct series ids, filtering the per-series blocks by one
series' id keeps exactly that series' block. -/
lemma filter_blocks (os : Nat) (f : Int)
    (pairs : List (SeriesData × List Rat))
    (hnd : (pairs.map (fun p => p.1.unique_id)).Nodup)
    (p : SeriesData × List Rat) (hp : p ∈ pairs) :
    (pairs.flatMap (fun r =>
        ((panelDs f os r.1.last_ds).zip r.2).map
          (yRowOf r.1.unique_id))).filter
        (fun row => row.unique_id == p.1.unique_id) =
      ((panelDs f os p.1.last_ds).zip p.2).map (yRowOf p.1.unique_id) := by
  induction pairs with
  | nil => cases hp
  | cons r rs ih =>
    simp only [List.map_cons, List.nodup_cons] at hnd
    rw [List.flatMap_cons, List.filter_append]
    rcases List.mem_cons.mp hp with hpr | hprs
    · subst hpr
      have h1 : (((panelDs f os p.1.last_ds).zip p.2).map
          (yRowOf p.1.unique_id)).filter
          (fun row => row.unique_id == p.1.unique_id) =
          ((panelDs f os p.1.last_ds).zip p.2).map (yRowOf p.1.unique_id) := by
        apply List.filter_eq_self.mpr
        intro row hrow
        simp only [List.mem_map] at hrow
        obtain ⟨q, _, rfl⟩ := hrow
        simp [yRowOf]
      have h2 : (rs.flatMap (fun r2 =>
          ((panelDs f os r2.1.last_ds).zip r2.2).map
            (yRowOf r2.1.unique_id))).filter
          (fun row => row.unique_id == p.1.unique_id) = [] := by
        apply List.filter_eq_nil_iff.mpr
        intro row hrow
        simp only [List.mem_flatMap, List.mem_map] at hrow
        obtain ⟨r2, hr2, q, _, rfl⟩ := hrow
        simp only [yRowOf, beq_iff_eq]
        intro heq
        exact hnd.1 (heq ▸ List.mem_map_of_mem (fun p2 => p2.1.unique_id) hr2)
      rw [h1, h2, List.append_nil]
    · have hne : (r.1.unique_id == p.1.unique_id) = false := by
        simp only [beq_eq_false_iff_ne, ne_eq]
        intro heq
        exact hnd.1 (heq ▸ List.mem_map_of_mem (fun p2 => p2.1.unique_id) hprs)
      have h1 : (((panelDs f os r.1.last_ds).zip r.2).map
          (yRowOf r.1.unique_id)).filter
          (fun row => row.unique_id == p.1.unique_id) = [] := by
        apply List.filter_eq_nil_iff.mpr
        intro row hrow
        simp only [List.mem_map] at hrow
        obtain ⟨q, _, rfl⟩ := hrow
        simp [yRowOf, hne]
      rw [h1, List.nil_append]
      exact ih hnd.2 hprs

/-- Claim C5: for a fitted model, `predict` builds exactly `output_size`
forecast rows per series, whose timestamps are the `output_size` dates
strictly after that series' last observed training date, spaced by the
inferred frequency, carrying that series' forecast values in order, and
returns this panel left-merged onto the caller-supplied frame: on
`unique_id` and `ds` when the `ds` column is present, on `unique_id`
alone otherwise. -/
theorem C5_predict_output (st : ModelState) (dl : DataLoaderState) (n : Nat)
    (xdf : XFrame) (forecasts : List (List Rat)) (f : Int)
    (hfit : st.fitted = true) (hdl : st.dataloader = some dl)
    (hn : st.mc.n_series = some n) (hu : xdf.hasUniqueId = true)
    (hfreq : st.mc.frequency = some f) (hf : 0 < f)
    (hlen : forecasts.length = dl.series.length)
    (hall : ∀ g ∈ forecasts, g.length = st.mc.output_size)
    (hnd : (dl.series.map (fun s => s.unique_id)).Nodup) :
    ((predictModel st xdf forecasts).2 = .ok
      { panel :=
          if xdf.hasDs then
            leftMergeDs xdf.rows
              (yHatPanel dl.series st.mc.output_size f forecasts)
          else
            leftMergeId xdf.rows
              (yHatPanel dl.series st.mc.output_size f forecasts),
        usedBatchSize := min n st.mc.batch_size_test }) ∧
    ∀ p ∈ dl.series.zip forecasts,
      (((yHatPanel dl.series st.mc.output_size f forecasts).filter
          (fun row => row.unique_id == p.1.unique_id)).length
        = st.mc.output_size) ∧
      (((yHatPanel dl.series st.mc.output_size f forecasts).filter
          (fun row => row.unique_id == p.1.unique_id)).map
          (fun row => row.ds)
        = panelDs f st.mc.output_size p.1.last_ds) ∧
      (((yHatPanel dl.series st.mc.output_size f forecasts).filter
          (fun row => row.unique_id == p.1.unique_id)).map
          (fun row => row.y_hat) = p.2) ∧
      (∀ d ∈ panelDs f st.mc.output_size p.1.last_ds, p.1.last_ds < d) := by
  constructor
  · unfold predictModel
    by_cases hds : xdf.hasDs = true <;>
      simp [hu, hfit, hdl, hn, hfreq, hds, DataLoaderState.update_batch_size]
  · intro p hp
    have hndp : ((dl.series.zip forecasts).map
        (fun p2 => p2.1.unique_id)).Nodup := by
      have h1 : (dl.series.zip forecasts).map Prod.fst = dl.series :=
        List.map_fst_zip _ _ (le_of_eq hlen.symm)
      have hmf : (dl.series.zip forecasts).map (fun p2 => p2.1.unique_id) =
          dl.series.map (fun s => s.unique_id) := by
        calc (dl.series.zip forecasts).map (fun p2 => p2.1.unique_id)
            = ((dl.series.zip forecasts).map Prod.fst).map
                (fun s => s.unique_id) := by rw [List.map_map]; rfl
          _ = dl.series.map (fun s => s.unique_id) := by rw [h1]
      rw [hmf]
      exact hnd
    have hblocks := yHatPanel_blocks st.mc.output_size f dl.series forecasts
      hlen hall
    have hfb := filter_blocks st.mc.output_size f (dl.series.zip forecasts)
      hndp p hp
    obtain ⟨s, g⟩ := p
    have hgmem : g ∈ forecasts := (List.of_mem_zip hp).2
    have hg : g.length = st.mc.output_size := hall g hgmem
    have hpdos : (panelDs f st.mc.output_size s.last_ds).length
        = st.mc.output_size := by
      unfold panelDs
      rw [List.length_map, List.length_range]
    rw [hblocks, hfb]
    refine ⟨?_, ?_, ?_, ?_⟩
    · rw [List.length_map, List.length_zip, hpdos, hg, min_self]
    · calc (((panelDs f st.mc.output_size s.last_ds).zip g).map
            (yRowOf s.unique_id)).map (fun row => row.ds)
          = ((panelDs f st.mc.output_size s.last_ds).zip g).map Prod.fst := by
            rw [List.map_map]; rfl
        _ = panelDs f st.mc.output_size s.last_ds :=
            List.map_fst_zip _ _ (by rw [hpdos, hg])
    · calc (((panelDs f st.mc.output_size s.last_ds).zip g).map
            (yRowOf s.unique_id)).map (fun row => row.y_hat)
          = ((panelDs f st.mc.output_size s.last_ds).zip g).map Prod.snd := by
            rw [List.map_map]; rfl
        _ = g := List.map_snd_zip _ _ (by rw [hpdos, hg])
    · intro d hd
      unfold panelDs at hd
      simp only [List.mem_map, List.mem_range] at hd
      obtain ⟨k, _, rfl⟩ := hd
      have hpos : 0 < ((k : Int) + 1) * f := mul_pos (by positivity) hf
      linarith

theorem C5_witness :
    ((predictModel (fitValidate (ESRNN.new defaultMC) sampleFitInput).1
        { hasUniqueId := true, hasDs := true, rows := [⟨"s1", 21, 0⟩] }
        [[1, 2, 3, 4, 5, 6, 7, 8]]).2 = .ok
      { panel := leftMergeDs [⟨"s1", 21, 0⟩]
          (yHatPanel [{ unique_id := "s1", x := 0, last_ds := 20, length := 12 }]
            8 1 [[1, 2, 3, 4, 5, 6, 7, 8]]),
        usedBatchSize := 1 }) ∧
    (((yHatPanel [{ unique_id := "s1", x := 0, last_ds := 20, length := 12 }]
        8 1 [[1, 2, 3, 4, 5, 6, 7, 8]]).filter
        (fun row => row.unique_id == "s1")).length = 8) := by
  have h := C5_predict_output
    (fitValidate (ESRNN.new defaultMC) sampleFitInput).1
    { batch_size := 1, n_batches := 1,
      series := [{ unique_id := "s1", x := 0, last_ds := 20, length := 12 }] }
    1 { hasUniqueId := true, hasDs := true, rows := [⟨"s1", 21, 0⟩] }
    [[1, 2, 3, 4, 5, 6, 7, 8]] 1 rfl rfl rfl rfl rfl (by decide)
    (by decide) (by intro g hg; simp at hg; rw [hg]; rfl) (by decide)
  refine ⟨h.1, ?_⟩
  have h2 := h.2 ({ unique_id := "s1", x := 0, last_ds := 20, length := 12 },
    [1, 2, 3, 4, 5, 6, 7, 8]) (List.mem_cons_self _ _)
  exact h2.1

end ESRNNModel
